import Mathlib

/-
Verification of the twikit bridge worker (src/backend/python/twikit_bridge.py):
a line-delimited JSON-RPC loop dispatching to three handlers (initialize,
search, trending) over a mutable bridge state, brokering calls to an external
scraping capability.

Modelling conventions (shallow embedding):
* JSON values are `JVal`; numbers are modelled as integers (every number the
  claims touch -- ids, counts, JSON-RPC codes -- is integral).
* Python exceptions reaching the modelled code are `PyExc`; the class test
  `except TwikitException` is the `.twikit` constructor, `except Exception`
  catches every constructor.  `traceback.format_exc()` is modelled opaquely by
  `formatExc`.  Exception detail strings are modelled up to wording.
* The external twikit `Client` is the opaque `Capability` record; its three
  operations are `login`, `searchTweet`, `getTrends` and may return any value
  or raise any exception.  A raw item whose attribute access raises during
  per-item mapping is the `.bad` constructor of `RawTweet` / `RawTrend`.
* `datetime.now().isoformat()` is the explicitly threaded parameter `now`.
* `json.loads` on a full input line is external; the loop is modelled over a
  stream of already classified lines (`InputLine`): blank after strip,
  undecodable with a decoder message, or decoded to a `JVal`.
-/

set_option autoImplicit false

namespace Twikit

/-- JSON values, as produced by json.loads and consumed by json.dumps.
Numbers are modelled as integers (see the header comment). -/
inductive JVal where
  | null : JVal
  | bool (b : Bool) : JVal
  | num (n : Int) : JVal
  | str (s : String) : JVal
  | arr (elems : List JVal) : JVal
  | obj (fields : List (String × JVal)) : JVal

/-- Python-level exceptions that can reach the modelled code.  `.twikit` is
TwikitException (caught separately by the handlers); everything else is caught
only by the broad `except Exception` clauses. -/
inductive PyExc where
  | twikit (msg : String)
  | attrError (msg : String)
  | typeError (msg : String)
  | other (msg : String)

/-- str(e): the message carried by the exception. -/
def PyExc.message : PyExc → String
  | .twikit m => m
  | .attrError m => m
  | .typeError m => m
  | .other m => m

/-- Model of traceback.format_exc(): an opaque diagnostic string derived from
the exception. -/
def formatExc (e : PyExc) : String :=
  "Traceback (most recent call last): " ++ e.message

/-- Python type name of a JSON value, used in modelled exception details. -/
def pyTypeName : JVal → String
  | .null => "NoneType"
  | .bool _ => "bool"
  | .num _ => "int"
  | .str _ => "str"
  | .arr _ => "list"
  | .obj _ => "dict"

/-- Detail of the AttributeError raised by calling .get on a non-dict value
(modelled up to wording of the CPython message). -/
def noGetMsg (v : JVal) : String :=
  pyTypeName v ++ " object has no attribute get"

/-- First-match association lookup in a JSON object's field list (json.loads
never yields duplicate keys, so this agrees with the Python dict). -/
def lookupField : List (String × JVal) → String → Option JVal
  | [], _ => none
  | (k, v) :: rest, key => if k = key then some v else lookupField rest key

/-- dict.get(key) on a parsed value: returns the entry, None when the key is
missing, and raises AttributeError when the receiver is not a dict. -/
def pyDictGet (params : JVal) (key : String) : Except PyExc JVal :=
  match params with
  | .obj fs => .ok ((lookupField fs key).getD .null)
  | v => .error (.attrError (noGetMsg v))

/-- dict.get(key, default) on a parsed value: like `pyDictGet` but with an
explicit default for a missing key. -/
def pyDictGetD (params : JVal) (key : String) (dflt : JVal) : Except PyExc JVal :=
  match params with
  | .obj fs => .ok ((lookupField fs key).getD dflt)
  | v => .error (.attrError (noGetMsg v))

/-- Field access on a JSON object (observer used by the theorems). -/
def jGet (v : JVal) (key : String) : Option JVal :=
  match v with
  | .obj fs => lookupField fs key
  | _ => none

/-- JVal.str projection. -/
def jvalAsString : JVal → Option String
  | .str s => some s
  | _ => none

/-- True exactly on JSON objects (Python dicts after json.loads). -/
def JVal.isObjB : JVal → Bool
  | .obj _ => true
  | _ => false

/-- Rendering of a value inside an f-string (modelled up to wording for
containers); used for the Method-not-found message. -/
def jvalRender : JVal → String
  | .null => "None"
  | .bool b => if b then "True" else "False"
  | .num n => toString n
  | .str s => s
  | .arr _ => "<list>"
  | .obj _ => "<dict>"

/-- Attributes of the user object attached to a raw tweet; `none` models an
absent attribute (getattr default applies). -/
structure UserFields where
  name : Option String
  screen_name : Option String

/-- Attributes of a raw tweet as read by search_tweets via getattr.
`idAsStr` is str(tweet.id) when the id attribute is present.  A count field
`some none` models an attribute that is present but None (the `or 0` applies).
`media` is `none` when the media attribute is absent or None; each element is
the item's media_url_https when present. -/
structure TweetFields where
  id_str : Option String
  idAsStr : Option String
  full_text : Option String
  text : Option String
  favorite_count : Option (Option Int)
  retweet_count : Option (Option Int)
  reply_count : Option (Option Int)
  view_count : Option (Option Int)
  created_at : Option String
  user : Option UserFields
  media : Option (List (Option String))

/-- A raw item of the search batch: either an object whose attributes read
cleanly, or one whose attribute access raises during mapping (the per-item
try/except catches it). -/
inductive RawTweet where
  | ok (fields : TweetFields)
  | bad (e : PyExc)

/-- True exactly on the raw tweets whose mapping raises. -/
def RawTweet.isBad : RawTweet → Bool
  | .ok _ => false
  | .bad _ => true

/-- Attributes of a raw trend as read by get_trending via getattr. -/
structure TrendFields where
  name : Option String
  url : Option String
  tweet_volume : Option Int

/-- A raw item of the trends batch, with the same raising case as RawTweet. -/
inductive RawTrend where
  | ok (fields : TrendFields)
  | bad (e : PyExc)

/-- True exactly on the raw trends whose mapping raises. -/
def RawTrend.isBad : RawTrend → Bool
  | .ok _ => false
  | .bad _ => true

/-- The external twikit client: an opaque capability with the three operations
the bridge invokes.  Arguments are passed through as JSON values exactly as the
bridge does. -/
structure Capability where
  login : JVal → JVal → JVal → Except PyExc Unit
  searchTweet : JVal → JVal → Except PyExc (List RawTweet)
  getTrends : Except PyExc (List RawTrend)

/-- The record of capability operations a handler actually invoked. -/
inductive CapCall where
  | login (u e p : JVal)
  | searchTweet (q c : JVal)
  | getTrends

/-- Mutable state of the TwikitBridge instance.  `client` records whether
self.client is non-None; the credential fields start as Python None. -/
structure Bridge where
  client : Bool
  initialized : Bool
  username : JVal
  email : JVal
  password : JVal

/-- TwikitBridge.__init__: the state created at process start. -/
def Bridge.start : Bridge :=
  { client := false, initialized := false
    username := .null, email := .null, password := .null }

/-- Payload returned by search/trending when the precondition fails. -/
def notInitializedPayload : JVal :=
  .obj [("success", .bool false),
        ("error", .str "Client not initialized. Call initialize first."),
        ("type", .str "NOT_INITIALIZED")]

/-- Success payload of the initialize handler. -/
def initSuccessPayload (u : JVal) : JVal :=
  .obj [("success", .bool true),
        ("message", .str "Twikit client initialized successfully"),
        ("username", u)]

/-- AUTH_ERROR payload of the initialize handler. -/
def authErrorPayload (m : String) : JVal :=
  .obj [("success", .bool false),
        ("error", .str ("Twikit authentication failed: " ++ m)),
        ("type", .str "AUTH_ERROR")]

/-- API_ERROR payload of search/trending. -/
def apiErrorPayload (m : String) : JVal :=
  .obj [("success", .bool false),
        ("error", .str m),
        ("type", .str "API_ERROR")]

/-- UNKNOWN_ERROR payload with attached traceback. -/
def unknownPayload (m tb : String) : JVal :=
  .obj [("success", .bool false),
        ("error", .str m),
        ("type", .str "UNKNOWN_ERROR"),
        ("traceback", .str tb)]

/-- Splitting a character list on a separator (used by the strptime model). -/
def splitOnChar (c : Char) : List Char → List (List Char)
  | [] => [[]]
  | x :: xs =>
    let r := splitOnChar c xs
    if x = c then [] :: r
    else
      match r with
      | [] => [[x]]
      | y :: ys => (x :: y) :: ys

/-- Value of a nonempty all-digit character list. -/
def digitsToNat? (cs : List Char) : Option Nat :=
  if cs = [] then none
  else if cs.all (fun c => c.isDigit) then
    some (cs.foldl (fun a c => a * 10 + (c.toNat - 48)) 0)
  else none

/-- One or two digits with value at most `hi` (the shape the CPython strptime
regex accepts for the numeric directives used here). -/
def parse1or2 (cs : List Char) (hi : Nat) : Option Nat :=
  if cs.length = 1 ∨ cs.length = 2 then
    match digitsToNat? cs with
    | some v => if v ≤ hi then some v else none
    | none => none
  else none

/-- Abbreviated weekday names accepted by the %a directive (canonical C-locale
forms; strptime ignores the weekday once a full date is given). -/
def dayAbbrOk (cs : List Char) : Bool :=
  ["Mon", "Tue", "Wed", "Thu", "Fri", "Sat", "Sun"].any (fun s => s.toList == cs)

/-- Month number of an abbreviated %b month name (canonical C-locale forms). -/
def monthNum (cs : List Char) : Option Nat :=
  if cs == "Jan".toList then some 1
  else if cs == "Feb".toList then some 2
  else if cs == "Mar".toList then some 3
  else if cs == "Apr".toList then some 4
  else if cs == "May".toList then some 5
  else if cs == "Jun".toList then some 6
  else if cs == "Jul".toList then some 7
  else if cs == "Aug".toList then some 8
  else if cs == "Sep".toList then some 9
  else if cs == "Oct".toList then some 10
  else if cs == "Nov".toList then some 11
  else if cs == "Dec".toList then some 12
  else none

/-- Gregorian leap-year test (as used by datetime). -/
def isLeap (y : Nat) : Bool :=
  (y % 4 == 0 && !(y % 100 == 0)) || y % 400 == 0

/-- Number of days of a month (the datetime constructor rejects larger days
with ValueError, which the bare except turns into the now-fallback). -/
def daysInMonth (m y : Nat) : Nat :=
  if m = 2 then (if isLeap y then 29 else 28)
  else if m = 4 ∨ m = 6 ∨ m = 9 ∨ m = 11 then 30
  else 31

/-- Offset in minutes of a %z timezone of the form sign-HHMM.  Offsets of 24
hours or more are rejected by the timezone constructor (ValueError), hence the
bound on hours. -/
def parseTz (cs : List Char) : Option Int :=
  match cs with
  | [s, d1, d2, d3, d4] =>
    if (s = '+' ∨ s = '-') ∧ [d1, d2, d3, d4].all (fun c => c.isDigit) then
      let hh := (d1.toNat - 48) * 10 + (d2.toNat - 48)
      let mm := (d3.toNat - 48) * 10 + (d4.toNat - 48)
      if hh ≤ 23 ∧ mm ≤ 59 then
        let total : Int := (hh * 60 + mm : Nat)
        some (if s = '-' then -total else total)
      else none
    else none
  | _ => none

/-- An aware datetime as produced by strptime: calendar fields plus the UTC
offset in minutes. -/
structure PyDateTime where
  year : Nat
  month : Nat
  day : Nat
  hour : Nat
  minute : Nat
  second : Nat
  tzMin : Int
deriving DecidableEq

/-- Model of datetime.strptime(s, day-of-week month day HH:MM:SS tz year) on
the canonical C-locale rendering of that format: six space-separated fields,
validated exactly as far as the CPython regex plus the datetime constructor
validate them (day against month length, hour below 24, minute and second
below 60, four-digit year at least 1, offset below 24 hours).  Failures of any
kind are `none`, which the source's bare except turns into the now-fallback. -/
def strptimeTwitter (s : String) : Option PyDateTime :=
  match splitOnChar ' ' s.toList with
  | [dow, mon, dd, hms, tz, yyyy] =>
    if dayAbbrOk dow then
      match monthNum mon, parse1or2 dd 31, splitOnChar ':' hms,
            parseTz tz, digitsToNat? yyyy with
      | some m, some d, [hh, mi, ss], some off, some y =>
        (match parse1or2 hh 23, parse1or2 mi 59, parse1or2 ss 59 with
         | some h, some mi2, some s2 =>
           if yyyy.length = 4 ∧ 1 ≤ y ∧ 1 ≤ d ∧ d ≤ daysInMonth m y then
             some ⟨y, m, d, h, mi2, s2, off⟩
           else none
         | _, _, _ => none)
      | _, _, _, _, _ => none
    else none
  | _ => none

/-- Two-digit zero padding. -/
def pad2 (n : Nat) : String :=
  if n < 10 then "0" ++ toString n else toString n

/-- Four-digit zero padding (isoformat pads the year to four digits). -/
def pad4 (n : Nat) : String :=
  if n < 10 then "000" ++ toString n
  else if n < 100 then "00" ++ toString n
  else if n < 1000 then "0" ++ toString n
  else toString n

/-- Rendering of a fixed UTC offset as isoformat prints it. -/
def tzRender (off : Int) : String :=
  let a := off.natAbs
  (if off < 0 then "-" else "+") ++ pad2 (a / 60) ++ ":" ++ pad2 (a % 60)

/-- datetime.isoformat() of an aware datetime with zero microseconds. -/
def pyIsoformat (dt : PyDateTime) : String :=
  pad4 dt.year ++ "-" ++ pad2 dt.month ++ "-" ++ pad2 dt.day ++ "T" ++
    pad2 dt.hour ++ ":" ++ pad2 dt.minute ++ ":" ++ pad2 dt.second ++
    tzRender dt.tzMin

/-- Timestamp normalization of search_tweets: a truthy created_at string is
parsed with strptime and rendered with isoformat; on any parse failure, or
when the attribute is absent or falsy, the current wall-clock time `now` is
substituted. -/
def tweetTimestamp (now : String) (createdAt : Option String) : String :=
  match createdAt with
  | none => now
  | some s =>
    if s = "" then now
    else
      match strptimeTwitter s with
      | some dt => pyIsoformat dt
      | none => now

/-- The `or 0` normalization of a metric read by getattr with default 0:
absent attribute and present-but-None both become 0. -/
def orZero : Option (Option Int) → Int
  | none => 0
  | some none => 0
  | some (some n) => n

/-- The tweet_data dictionary built for one cleanly-read raw tweet, in source
field order. -/
def mkTweetData (now : String) (f : TweetFields) : JVal :=
  let mediaUrls : List JVal :=
    match f.media with
    | none => []
    | some ms => (ms.filterMap id).map JVal.str
  let authorName : String :=
    match f.user with
    | some u => u.name.getD "Unknown"
    | none => "Unknown"
  let authorUsername : String :=
    match f.user with
    | some u => u.screen_name.getD "unknown"
    | none => "unknown"
  .obj [("id", .str (f.id_str.getD (f.idAsStr.getD ""))),
        ("text", .str (f.full_text.getD (f.text.getD ""))),
        ("author", .str authorName),
        ("username", .str authorUsername),
        ("timestamp", .str (tweetTimestamp now f.created_at)),
        ("url", .str ("https://twitter.com/" ++ authorUsername ++ "/status/" ++
          f.id_str.getD "")),
        ("likes", .num (orZero f.favorite_count)),
        ("retweets", .num (orZero f.retweet_count)),
        ("replies", .num (orZero f.reply_count)),
        ("views", .num (orZero f.view_count)),
        ("images", .arr mediaUrls),
        ("platform", .str "twitter")]

/-- Per-item mapping of the search loop body: a raising item is dropped by the
per-item except/continue, every other item maps totally. -/
def mapTweet (now : String) : RawTweet → Option JVal
  | .ok f => some (mkTweetData now f)
  | .bad _ => none

/-- Per-item mapping of the trending loop body. -/
def mapTrend : RawTrend → Option JVal
  | .ok f =>
    some (.obj [("name", .str (f.name.getD "")),
                ("url", .str (f.url.getD "")),
                ("tweet_volume",
                  match f.tweet_volume with
                  | some n => .num n
                  | none => .null),
                ("platform", .str "twitter")])
  | .bad _ => none

/-- TwikitBridge.initialize: stores the credentials, replaces the client, then
attempts the capability login; TwikitException becomes AUTH_ERROR, any other
exception becomes UNKNOWN_ERROR, success additionally sets the flag. -/
def initializeClient (cap : Capability) (st : Bridge) (u em pw : JVal) :
    Bridge × JVal × List CapCall :=
  let st1 : Bridge :=
    { st with username := u, email := em, password := pw, client := true }
  match cap.login u em pw with
  | .ok _ =>
    ({ st1 with initialized := true }, initSuccessPayload u, [.login u em pw])
  | .error (.twikit m) => (st1, authErrorPayload m, [.login u em pw])
  | .error e =>
    (st1, unknownPayload ("Initialization failed: " ++ e.message) (formatExc e),
      [.login u em pw])

/-- TwikitBridge.search_tweets: precondition check on the flag and the client,
then the capability search, then the best-effort per-item mapping. -/
def searchTweets (cap : Capability) (now : String) (st : Bridge)
    (query cnt : JVal) : Bridge × JVal × List CapCall :=
  if st.initialized && st.client then
    match cap.searchTweet query cnt with
    | .ok rs =>
      let results := rs.filterMap (mapTweet now)
      (st, .obj [("success", .bool true),
                 ("tweets", .arr results),
                 ("count", .num (results.length : Int)),
                 ("query", query)],
        [.searchTweet query cnt])
    | .error (.twikit m) =>
      (st, apiErrorPayload ("Twitter API error: " ++ m),
        [.searchTweet query cnt])
    | .error e =>
      (st, unknownPayload ("Search failed: " ++ e.message) (formatExc e),
        [.searchTweet query cnt])
  else (st, notInitializedPayload, [])

/-- Integer view of a value as Python's min() accepts it for comparison with
an int: ints themselves, and bools (which are ints in Python); everything else
raises TypeError. -/
def pyToInt : JVal → Option Int
  | .num n => some n
  | .bool b => some (if b then 1 else 0)
  | _ => none

/-- Python list slice xs[:m] for an arbitrary integer bound: a nonnegative
bound keeps a prefix, a negative bound drops that many elements from the
end (clamped at an empty result). -/
def pySliceTo {α : Type} (xs : List α) (m : Int) : List α :=
  if 0 ≤ m then xs.take m.toNat else xs.take (xs.length - (-m).toNat)

/-- Detail of the TypeError raised by min() on a non-integer count (modelled
up to wording of the CPython message). -/
def minTypeErrMsg (cnt : JVal) : String :=
  "unsupported comparison between " ++ pyTypeName cnt ++ " and int"

/-- TwikitBridge.get_trending: precondition check, capability trends fetch,
slice to min(count, len(trends)), best-effort per-item mapping.  A count on
which min() raises TypeError is caught by the broad except as UNKNOWN_ERROR. -/
def getTrending (cap : Capability) (st : Bridge) (cnt : JVal) :
    Bridge × JVal × List CapCall :=
  if st.initialized && st.client then
    match cap.getTrends with
    | .ok rs =>
      (match pyToInt cnt with
       | some n =>
         let results := (pySliceTo rs (min n (rs.length : Int))).filterMap mapTrend
         (st, .obj [("success", .bool true),
                    ("trends", .arr results),
                    ("count", .num (results.length : Int))],
           [.getTrends])
       | none =>
         (st, unknownPayload ("Trending fetch failed: " ++ minTypeErrMsg cnt)
            (formatExc (.typeError (minTypeErrMsg cnt))), [.getTrends]))
    | .error (.twikit m) =>
      (st, apiErrorPayload ("Twitter API error: " ++ m), [.getTrends])
    | .error e =>
      (st, unknownPayload ("Trending fetch failed: " ++ e.message) (formatExc e),
        [.getTrends])
  else (st, notInitializedPayload, [])

/-- JSON-RPC error member, with the optional data field. -/
def errorField (code : Int) (msg : String) (data : Option String) : JVal :=
  .obj (("code", .num code) :: ("message", .str msg) ::
    (match data with
     | some d => [("data", .str d)]
     | none => []))

/-- JSON-RPC error envelope, in source key order. -/
def mkErrResp (code : Int) (msg : String) (data : Option String) (rid : JVal) :
    JVal :=
  .obj [("jsonrpc", .str "2.0"), ("error", errorField code msg data), ("id", rid)]

/-- JSON-RPC result envelope, in source key order. -/
def mkResultResp (res rid : JVal) : JVal :=
  .obj [("jsonrpc", .str "2.0"), ("result", res), ("id", rid)]

/-- Body of the try block of handle_request: method comparison chain, required
and defaulted parameter extraction (each .get can raise on a non-dict params),
handler invocation, wrapping of the handler payload as the result member; an
unknown method short-circuits to the -32601 envelope. -/
def tryBody (cap : Capability) (now : String) (br : Bridge)
    (method params rid : JVal) : Except PyExc (Bridge × JVal × List CapCall) :=
  let mname := jvalAsString method
  if mname = some "initialize" then
    match pyDictGet params "username" with
    | .error e => .error e
    | .ok u =>
      match pyDictGet params "email" with
      | .error e => .error e
      | .ok em =>
        match pyDictGet params "password" with
        | .error e => .error e
        | .ok pw =>
          let r := initializeClient cap br u em pw
          .ok (r.1, mkResultResp r.2.1 rid, r.2.2)
  else if mname = some "search" then
    match pyDictGet params "query" with
    | .error e => .error e
    | .ok q =>
      match pyDictGetD params "count" (.num 20) with
      | .error e => .error e
      | .ok c =>
        let r := searchTweets cap now br q c
        .ok (r.1, mkResultResp r.2.1 rid, r.2.2)
  else if mname = some "trending" then
    match pyDictGetD params "count" (.num 20) with
    | .error e => .error e
    | .ok c =>
      let r := getTrending cap br c
      .ok (r.1, mkResultResp r.2.1 rid, r.2.2)
  else
    .ok (br, mkErrResp (-32601) ("Method not found: " ++ jvalRender method) none
      rid, [])

/-- handle_request: the three field reads on the request happen before the try
block, so on a non-dict request the AttributeError of the first escapes the
function; inside the try, any exception is converted to the -32603 Internal
error envelope with the traceback as data and the id preserved. -/
def handleRequest (cap : Capability) (now : String) (br : Bridge)
    (request : JVal) : Except PyExc (Bridge × JVal × List CapCall) :=
  match request with
  | .obj fs =>
    let method := (lookupField fs "method").getD .null
    let params := (lookupField fs "params").getD (.obj [])
    let rid := (lookupField fs "id").getD .null
    match tryBody cap now br method params rid with
    | .ok r => .ok r
    | .error e =>
      .ok (br, mkErrResp (-32603) ("Internal error: " ++ e.message)
        (some (formatExc e)) rid, [])
  | v => .error (.attrError (noGetMsg v))

/-- One input line of the loop, classified by what stripping and json.loads
did to it: blank after strip, undecodable with the decoder's message, or
decoded to a JSON value. -/
inductive InputLine where
  | blank
  | malformed (msg : String)
  | parsed (v : JVal)

/-- True on the lines for which the loop emits a response. -/
def InputLine.answered : InputLine → Bool
  | .blank => false
  | .malformed _ => true
  | .parsed _ => true

/-- Body of the while loop of main for one line: blank lines are skipped,
decode failures answered with the -32700 Parse error envelope and id null,
decoded lines dispatched; an exception escaping handle_request is caught by
the loop's own except clause and answered with the -32603 Server error
envelope and id null.  Returns the successor bridge state and the response
lines written. -/
def processLine (cap : Capability) (now : String) (br : Bridge) :
    InputLine → Bridge × List JVal
  | .blank => (br, [])
  | .malformed msg =>
    (br, [mkErrResp (-32700) ("Parse error: " ++ msg) none .null])
  | .parsed v =>
    match handleRequest cap now br v with
    | .ok (br', resp, _) => (br', [resp])
    | .error e =>
      (br, [mkErrResp (-32603) ("Server error: " ++ e.message)
        (some (formatExc e)) .null])

/-- The while loop of main over a finite input stream: processes every line in
order, threading the bridge state and concatenating the emitted responses. -/
def runLoop (cap : Capability) (now : String) (br : Bridge) :
    List InputLine → Bridge × List JVal
  | [] => (br, [])
  | l :: ls =>
    let r := processLine cap now br l
    let rest := runLoop cap now r.1 ls
    (rest.1, r.2 ++ rest.2)

/-- One protocol-visible operation on the bridge state, for the state
invariants. -/
inductive Op where
  | opInit (u e p : JVal)
  | opSearch (q c : JVal)
  | opTrending (c : JVal)

/-- State transition of one handler invocation. -/
def applyOp (cap : Capability) (now : String) (st : Bridge) : Op → Bridge
  | .opInit u e p => (initializeClient cap st u e p).1
  | .opSearch q c => (searchTweets cap now st q c).1
  | .opTrending c => (getTrending cap st c).1

/-- State transition of one initialize call with fixed credentials. -/
def initStep (cap : Capability) (u e p : JVal) (st : Bridge) : Bridge :=
  (initializeClient cap st u e p).1

/-- Number of raw tweets of a batch whose mapping raises. -/
def badTweetCount : List RawTweet → Nat
  | [] => 0
  | .ok _ :: tl => badTweetCount tl
  | .bad _ :: tl => badTweetCount tl + 1

/-- Number of raw trends of a batch whose mapping raises. -/
def badTrendCount : List RawTrend → Nat
  | [] => 0
  | .ok _ :: tl => badTrendCount tl
  | .bad _ :: tl => badTrendCount tl + 1

/-- A capability stub whose every operation succeeds with empty batches. -/
def cap0 : Capability :=
  { login := fun _ _ _ => .ok ()
    searchTweet := fun _ _ => .ok []
    getTrends := .ok [] }

/-- A capability stub whose login raises TwikitException. -/
def capBad : Capability :=
  { login := fun _ _ _ => .error (.twikit "bad credentials")
    searchTweet := fun _ _ => .ok []
    getTrends := .ok [] }

/-- A raw tweet all of whose optional attributes are absent. -/
def tfEmpty : TweetFields :=
  { id_str := none, idAsStr := none, full_text := none, text := none
    favorite_count := none, retweet_count := none, reply_count := none
    view_count := none, created_at := none, user := none, media := none }

/-- Five raw tweets of which the third raises during mapping. -/
def rs5 : List RawTweet :=
  [.ok tfEmpty, .ok tfEmpty, .bad (.other "boom"), .ok tfEmpty, .ok tfEmpty]

/-- Two raw trends that map cleanly. -/
def rt2 : List RawTrend :=
  [.ok { name := some "A", url := some "a", tweet_volume := none },
   .ok { name := some "B", url := some "b", tweet_volume := some 5 }]

/-- A capability stub returning the concrete batches above. -/
def capS : Capability :=
  { login := fun _ _ _ => .ok ()
    searchTweet := fun _ _ => .ok rs5
    getTrends := .ok rt2 }

/-- An authenticated bridge state. -/
def stAuth : Bridge :=
  { client := true, initialized := true
    username := .str "u", email := .str "e", password := .str "p" }

/-- Boolean test for the message shape the spec mandates for dispatcher
failures: a message of the form Internal error followed by a detail. -/
def isInternalErrorForm (s : String) : Bool :=
  decide (s.toList.take 16 = ("Internal error: ").toList)

/-- Message of the error member of a response envelope. -/
def respErrMessage (r : JVal) : Option JVal :=
  match jGet r "error" with
  | some e => jGet e "message"
  | none => none

/-- Code of the error member of a response envelope. -/
def respErrCode (r : JVal) : Option JVal :=
  match jGet r "error" with
  | some e => jGet e "code"
  | none => none

/-- Correlation id of a response envelope. -/
def respId (r : JVal) : Option JVal :=
  jGet r "id"

/-! Helper lemmas shared by the claim theorems. -/

/-- A result envelope carries exactly the id it was built with. -/
theorem respId_mkResultResp (res rid : JVal) :
    respId (mkResultResp res rid) = some rid := rfl

/-- An error envelope carries exactly the id it was built with. -/
theorem respId_mkErrResp (code : Int) (msg : String) (data : Option String)
    (rid : JVal) : respId (mkErrResp code msg data rid) = some rid := rfl

/-- Every successful outcome of the dispatcher try block is an envelope that
carries the request id. -/
theorem tryBody_ok_id (cap : Capability) (now : String) (br : Bridge)
    (method params rid : JVal) (out : Bridge × JVal × List CapCall)
    (h : tryBody cap now br method params rid = .ok out) :
    respId out.2.1 = some rid := by
  unfold tryBody at h
  by_cases h1 : jvalAsString method = some "initialize"
  · rw [if_pos h1] at h
    cases hu : pyDictGet params "username" with
    | error e => rw [hu] at h; cases h
    | ok u =>
      rw [hu] at h
      cases he : pyDictGet params "email" with
      | error e => rw [he] at h; cases h
      | ok em =>
        rw [he] at h
        cases hp : pyDictGet params "password" with
        | error e => rw [hp] at h; cases h
        | ok pw =>
          rw [hp] at h
          injection h with h2
          rw [← h2]
          rfl
  · rw [if_neg h1] at h
    by_cases h2 : jvalAsString method = some "search"
    · rw [if_pos h2] at h
      cases hq : pyDictGet params "query" with
      | error e => rw [hq] at h; cases h
      | ok q =>
        rw [hq] at h
        cases hc : pyDictGetD params "count" (.num 20) with
        | error e => rw [hc] at h; cases h
        | ok c =>
          rw [hc] at h
          injection h with h3
          rw [← h3]
          rfl
    · rw [if_neg h2] at h
      by_cases h3 : jvalAsString method = some "trending"
      · rw [if_pos h3] at h
        cases hc : pyDictGetD params "count" (.num 20) with
        | error e => rw [hc] at h; cases h
        | ok c =>
          rw [hc] at h
          injection h with h4
          rw [← h4]
          rfl
      · rw [if_neg h3] at h
        injection h with h4
        rw [← h4]
        rfl

/-- handle_request on an object request always returns normally, and the
response carries the id field of the request (null when missing). -/
theorem handleRequest_obj_id (cap : Capability) (now : String) (br : Bridge)
    (fs : List (String × JVal)) (out : Bridge × JVal × List CapCall)
    (h : handleRequest cap now br (.obj fs) = .ok out) :
    respId out.2.1 = some ((lookupField fs "id").getD .null) := by
  simp only [handleRequest] at h
  cases htb : tryBody cap now br ((lookupField fs "method").getD .null)
      ((lookupField fs "params").getD (.obj []))
      ((lookupField fs "id").getD .null) with
  | ok r =>
    rw [htb] at h
    injection h with h2
    rw [← h2]
    exact tryBody_ok_id cap now br _ _ _ r htb
  | error e =>
    rw [htb] at h
    injection h with h2
    rw [← h2]
    rfl

/-- The loop body emits exactly one response for every answered line and none
for a blank line. -/
theorem processLine_length (cap : Capability) (now : String) (br : Bridge)
    (l : InputLine) :
    ((processLine cap now br l).2).length = if l.answered then 1 else 0 := by
  cases l with
  | blank => rfl
  | malformed msg => rfl
  | parsed v =>
    cases h : handleRequest cap now br v with
    | ok r => obtain ⟨br', resp, tr⟩ := r; simp [processLine, h, InputLine.answered]
    | error e => simp [processLine, h, InputLine.answered]

/-- The loop answers every answered line of the stream exactly once: no line,
however it fails, terminates the loop or suppresses later responses. -/
theorem runLoop_length (cap : Capability) (now : String) :
    ∀ (ls : List InputLine) (br : Bridge),
      ((runLoop cap now br ls).2).length =
        (ls.filter (fun l => l.answered)).length := by
  intro ls
  induction ls with
  | nil => intro br; rfl
  | cons l tl ih =>
    intro br
    show ((processLine cap now br l).2 ++
        (runLoop cap now (processLine cap now br l).1 tl).2).length = _
    rw [List.length_append, processLine_length, ih]
    cases hl : l.answered with
    | false => simp [List.filter, hl]
    | true => simp [List.filter, hl]; omega

/-- The state component of search_tweets is always the input state. -/
theorem searchTweets_fst (cap : Capability) (now : String) (st : Bridge)
    (q c : JVal) : (searchTweets cap now st q c).1 = st := by
  unfold searchTweets
  cases hb : st.initialized && st.client with
  | false => simp
  | true =>
    simp only [if_true]
    cases hc : cap.searchTweet q c with
    | ok rs => rfl
    | error e => cases e <;> rfl

/-- The state component of get_trending is always the input state. -/
theorem getTrending_fst (cap : Capability) (st : Bridge) (c : JVal) :
    (getTrending cap st c).1 = st := by
  unfold getTrending
  cases hb : st.initialized && st.client with
  | false => simp
  | true =>
    simp only [if_true]
    cases hc : cap.getTrends with
    | ok rs => cases hoc : pyToInt c <;> rfl
    | error e => cases e <;> rfl

/-- Dropped-item accounting of the search mapping: mapped items plus raising
items exhaust the batch. -/
theorem tweets_length (now : String) : ∀ rs : List RawTweet,
    (rs.filterMap (mapTweet now)).length + badTweetCount rs = rs.length := by
  intro rs
  induction rs with
  | nil => rfl
  | cons hd tl ih =>
    cases hd <;>
      simp only [List.filterMap_cons, mapTweet, badTweetCount,
        List.length_cons] <;>
      omega

/-- Dropped-item accounting of the trend mapping. -/
theorem trends_length : ∀ rs : List RawTrend,
    (rs.filterMap mapTrend).length + badTrendCount rs = rs.length := by
  intro rs
  induction rs with
  | nil => rfl
  | cons hd tl ih =>
    cases hd <;>
      simp only [List.filterMap_cons, mapTrend, badTrendCount,
        List.length_cons] <;>
      omega

/-- Any message of the shape the spec mandates for dispatcher failures is
recognized by `isInternalErrorForm`. -/
theorem isInternalErrorForm_append (d : String) :
    isInternalErrorForm ("Internal error: " ++ d) = true := by
  unfold isInternalErrorForm
  rw [decide_eq_true_eq, String.toList, String.data_append,
    List.take_append_eq_append_take]
  rfl

/-- When the capability login succeeds, one initialize call drives the state
to the same fully-determined record from anywhere. -/
theorem initStep_const (cap : Capability) (u em pw : JVal)
    (h : cap.login u em pw = .ok ()) (st : Bridge) :
    initStep cap u em pw st =
      { client := true, initialized := true
        username := u, email := em, password := pw } := by
  unfold initStep initializeClient
  rw [h]

/-! Claim theorems. -/

/-- Claim C3, corrected.  When the capability raises a capability-classified
(TwikitException) authentication error, initialize returns the
success-false AUTH_ERROR payload and the authenticated flag is left unchanged;
but the claim's further assertion that the whole Session State, identity
included, is unchanged is false: the handler stores username, email and
password (and replaces the client) before attempting the login, so the
identity is overwritten even on failure.  This theorem proves the amended
statement, giving the exact state after the failed call. -/
theorem claim3_auth_failure_state (cap : Capability) (st : Bridge)
    (u em pw : JVal) (m : String)
    (h : cap.login u em pw = .error (.twikit m)) :
    initializeClient cap st u em pw =
      ({ st with username := u, email := em, password := pw, client := true },
        authErrorPayload m, [CapCall.login u em pw]) := by
  unfold initializeClient
  rw [h]

/-- Claim C3 witness: the amended theorem evaluated on a concrete failing
capability and the start state. -/
theorem claim3_witness :
    initializeClient capBad Bridge.start (.str "alice") (.str "e") (.str "p") =
      ({ Bridge.start with
          username := .str "alice", email := .str "e",
          password := .str "p", client := true },
        authErrorPayload "bad credentials",
        [CapCall.login (.str "alice") (.str "e") (.str "p")]) :=
  claim3_auth_failure_state capBad Bridge.start (.str "alice") (.str "e")
    (.str "p") "bad credentials" rfl

/-- Claim C3 counterexample: on a capability-classified auth failure the
payload is AUTH_ERROR and the flag stays down, yet the identity field has
changed from null to the attempted username, refuting the claim's assertion
that the Session State is left unchanged with identity unmodified. -/
theorem claim3_counterexample :
    (initializeClient capBad Bridge.start (.str "alice") (.str "e")
        (.str "p")).2.1 = authErrorPayload "bad credentials" ∧
    (initializeClient capBad Bridge.start (.str "alice") (.str "e")
        (.str "p")).1.initialized = false ∧
    (initializeClient capBad Bridge.start (.str "alice") (.str "e")
        (.str "p")).1.username = .str "alice" ∧
    Bridge.start.username = JVal.null ∧
    JVal.str "alice" ≠ JVal.null :=
  ⟨rfl, rfl, rfl, rfl, fun h => JVal.noConfusion h⟩

/-- Claim C4, confirmed.  On a state whose authenticated flag is down, search
and trending both return the NOT_INITIALIZED failure payload, leave the state
unchanged, and record no capability call, for every query and count value and
every capability. -/
theorem claim4_not_initialized_guard (cap : Capability) (now : String)
    (st : Bridge) (q c : JVal) (h : st.initialized = false) :
    searchTweets cap now st q c = (st, notInitializedPayload, []) ∧
    getTrending cap st c = (st, notInitializedPayload, []) := by
  constructor
  · unfold searchTweets
    rw [h]
    rfl
  · unfold getTrending
    rw [h]
    rfl

/-- Claim C4 witness: the guard evaluated at the start state with a concrete
query and count. -/
theorem claim4_witness :
    searchTweets cap0 "NOW" Bridge.start (.str "cats") (.num 5) =
      (Bridge.start, notInitializedPayload, []) ∧
    getTrending cap0 Bridge.start (.num 5) =
      (Bridge.start, notInitializedPayload, []) :=
  claim4_not_initialized_guard cap0 "NOW" Bridge.start (.str "cats") (.num 5)
    rfl

/-- Claim C5, confirmed.  A line that fails JSON decoding makes the loop emit
exactly one response, carrying error code -32700, the message Parse error
followed by the decoder detail, and id null; the state is untouched and the
remaining lines are processed exactly as they would have been without the
malformed line. -/
theorem claim5_parse_error_continues (cap : Capability) (now : String)
    (br : Bridge) (msg : String) (rest : List InputLine) :
    runLoop cap now br (.malformed msg :: rest) =
      ((runLoop cap now br rest).1,
        mkErrResp (-32700) ("Parse error: " ++ msg) none .null ::
          (runLoop cap now br rest).2) := rfl

/-- Claim C8, confirmed.  With credentials the capability accepts, every
repetition of initialize returns the success payload (no duplicate-session
error), and the bridge state after n+1 successive initialize calls equals the
state after one. -/
theorem claim8_idempotent (cap : Capability) (u em pw : JVal)
    (h : cap.login u em pw = .ok ()) :
    (∀ st : Bridge, (initializeClient cap st u em pw).2.1 =
      initSuccessPayload u) ∧
    (∀ (n : Nat) (st : Bridge),
      (initStep cap u em pw)^[n + 1] st = initStep cap u em pw st) := by
  constructor
  · intro st
    unfold initializeClient
    rw [h]
  · intro n
    induction n with
    | zero => intro st; rfl
    | succ k ih =>
      intro st
      rw [Function.iterate_succ_apply', ih st, initStep_const cap u em pw h,
        initStep_const cap u em pw h]

/-- Claim C8 witness: two initialize calls on a concrete accepting capability
coincide with one, and the first call returns the success payload. -/
theorem claim8_witness :
    (initializeClient cap0 Bridge.start (.str "u") (.str "e") (.str "p")).2.1 =
      initSuccessPayload (.str "u") ∧
    (initStep cap0 (.str "u") (.str "e") (.str "p"))^[2] Bridge.start =
      initStep cap0 (.str "u") (.str "e") (.str "p") Bridge.start :=
  ⟨(claim8_idempotent cap0 (.str "u") (.str "e") (.str "p") rfl).1 Bridge.start,
   (claim8_idempotent cap0 (.str "u") (.str "e") (.str "p") rfl).2 1
     Bridge.start⟩

/-- Claim C6, confirmed.  On an authenticated state, when the capability
returns a raw batch, search and trending both return a business-success
payload whose items are the in-order best-effort mapping of the batch (for
trending, of its count-slice): each raising item is dropped alone, the others
survive in order, and the number of returned items is the batch size minus
the number of raising items; no exception reaches the dispatcher. -/
theorem claim6_per_item_drop :
    (∀ (cap : Capability) (now : String) (st : Bridge) (q c : JVal)
        (rs : List RawTweet),
      st.initialized = true → st.client = true →
      cap.searchTweet q c = .ok rs →
      searchTweets cap now st q c =
        (st, .obj [("success", .bool true),
                   ("tweets", .arr (rs.filterMap (mapTweet now))),
                   ("count", .num ((rs.filterMap (mapTweet now)).length : Int)),
                   ("query", q)], [.searchTweet q c]) ∧
      (rs.filterMap (mapTweet now)).length = rs.length - badTweetCount rs) ∧
    (∀ (cap : Capability) (st : Bridge) (n : Int) (rs : List RawTrend),
      st.initialized = true → st.client = true →
      cap.getTrends = .ok rs →
      getTrending cap st (.num n) =
        (st, .obj [("success", .bool true),
                   ("trends", .arr ((pySliceTo rs
                     (min n (rs.length : Int))).filterMap mapTrend)),
                   ("count", .num (((pySliceTo rs
                     (min n (rs.length : Int))).filterMap mapTrend).length
                       : Int))],
          [.getTrends]) ∧
      ((pySliceTo rs (min n (rs.length : Int))).filterMap mapTrend).length =
        (pySliceTo rs (min n (rs.length : Int))).length -
          badTrendCount (pySliceTo rs (min n (rs.length : Int)))) := by
  constructor
  · intro cap now st q c rs h1 h2 hc
    constructor
    · unfold searchTweets
      rw [h1, h2, hc]
      rfl
    · have := tweets_length now rs
      omega
  · intro cap st n rs h1 h2 hc
    constructor
    · unfold getTrending
      rw [h1, h2, hc]
      rfl
    · have := trends_length (pySliceTo rs (min n (rs.length : Int)))
      omega

/-- Claim C6 witness: a batch of five raw tweets of which the third raises
maps to a success payload with the four surviving items, and a two-trend
batch behaves likewise. -/
theorem claim6_witness :
    (searchTweets capS "NOW" stAuth (.str "q") (.num 5) =
      (stAuth, .obj [("success", .bool true),
                     ("tweets", .arr (rs5.filterMap (mapTweet "NOW"))),
                     ("count", .num ((rs5.filterMap (mapTweet "NOW")).length
                       : Int)),
                     ("query", .str "q")],
        [.searchTweet (.str "q") (.num 5)]) ∧
      (rs5.filterMap (mapTweet "NOW")).length = rs5.length -
        badTweetCount rs5) ∧
    (getTrending capS stAuth (.num 2) =
      (stAuth, .obj [("success", .bool true),
                     ("trends", .arr ((pySliceTo rt2
                       (min 2 (rt2.length : Int))).filterMap mapTrend)),
                     ("count", .num (((pySliceTo rt2
                       (min 2 (rt2.length : Int))).filterMap mapTrend).length
                         : Int))],
        [.getTrends]) ∧
      ((pySliceTo rt2 (min 2 (rt2.length : Int))).filterMap mapTrend).length =
        (pySliceTo rt2 (min 2 (rt2.length : Int))).length -
          badTrendCount (pySliceTo rt2 (min 2 (rt2.length : Int)))) :=
  ⟨claim6_per_item_drop.1 capS "NOW" stAuth (.str "q") (.num 5) rs5 rfl rfl rfl,
   claim6_per_item_drop.2 capS stAuth 2 rt2 rfl rfl rfl⟩

/-- Claim C7, confirmed.  The authenticated flag starts false at process
start; every handler invocation preserves a raised flag; and an invocation
can raise the flag only by being an initialize whose capability login
succeeded. -/
theorem claim7_flag_monotone :
    Bridge.start.initialized = false ∧
    (∀ (cap : Capability) (now : String) (st : Bridge) (op : Op),
      st.initialized = true → (applyOp cap now st op).initialized = true) ∧
    (∀ (cap : Capability) (now : String) (st : Bridge) (op : Op),
      (applyOp cap now st op).initialized = true →
      st.initialized = true ∨
        ∃ u em pw, op = Op.opInit u em pw ∧ cap.login u em pw = .ok ()) := by
  refine ⟨rfl, ?_, ?_⟩
  · intro cap now st op h
    cases op with
    | opInit u em pw =>
      show ((initializeClient cap st u em pw).1).initialized = true
      unfold initializeClient
      cases hl : cap.login u em pw with
      | ok v => rfl
      | error e => cases e <;> exact h
    | opSearch q c =>
      show ((searchTweets cap now st q c).1).initialized = true
      rw [searchTweets_fst]
      exact h
    | opTrending c =>
      show ((getTrending cap st c).1).initialized = true
      rw [getTrending_fst]
      exact h
  · intro cap now st op h
    cases op with
    | opInit u em pw =>
      revert h
      show ((initializeClient cap st u em pw).1).initialized = true → _
      unfold initializeClient
      cases hl : cap.login u em pw with
      | ok v =>
        intro _
        exact Or.inr ⟨u, em, pw, rfl, by cases v; exact hl⟩
      | error e =>
        intro h
        cases e <;> exact Or.inl h
    | opSearch q c =>
      rw [show applyOp cap now st (.opSearch q c) =
        (searchTweets cap now st q c).1 from rfl, searchTweets_fst] at h
      exact Or.inl h
    | opTrending c =>
      rw [show applyOp cap now st (.opTrending c) =
        (getTrending cap st c).1 from rfl, getTrending_fst] at h
      exact Or.inl h

/-- Claim C7 witness: an authenticated state stays authenticated across a
search call on a concrete capability. -/
theorem claim7_witness :
    (applyOp cap0 "NOW" stAuth (.opSearch (.str "q") (.num 1))).initialized =
      true :=
  claim7_flag_monotone.2.1 cap0 "NOW" stAuth (.opSearch (.str "q") (.num 1))
    rfl

/-- Claim C9, confirmed.  Every cleanly-read raw tweet is produced (never
dropped for its timestamp), its mapped timestamp field is exactly the
normalization of its created_at attribute, and that normalization renders the
strptime result in ISO-8601 when the fixed textual format parses, while any
parse failure — including an absent or empty attribute — substitutes the
current wall-clock time. -/
theorem claim9_timestamp_fallback (now : String) :
    (∀ f : TweetFields, mapTweet now (.ok f) = some (mkTweetData now f)) ∧
    (∀ f : TweetFields, jGet (mkTweetData now f) "timestamp" =
      some (.str (tweetTimestamp now f.created_at))) ∧
    (∀ (s : String) (dt : PyDateTime), strptimeTwitter s = some dt →
      tweetTimestamp now (some s) = pyIsoformat dt) ∧
    (∀ s : String, strptimeTwitter s = none →
      tweetTimestamp now (some s) = now) ∧
    tweetTimestamp now none = now := by
  refine ⟨fun f => rfl, fun f => rfl, ?_, ?_, rfl⟩
  · intro s dt h
    simp only [tweetTimestamp]
    by_cases hs : s = ""
    · rw [hs] at h
      cases h
    · rw [if_neg hs, h]
  · intro s h
    simp only [tweetTimestamp]
    by_cases hs : s = ""
    · rw [if_pos hs]
    · rw [if_neg hs, h]

/-- Claim C9 witness: the canonical Twitter timestamp format parses and
renders in ISO-8601, and a garbage timestamp falls back to the supplied
wall-clock string. -/
theorem claim9_witness :
    tweetTimestamp "NOWSTR" (some "Wed Oct 10 20:19:24 +0000 2018") =
      pyIsoformat ⟨2018, 10, 10, 20, 19, 24, 0⟩ ∧
    tweetTimestamp "NOWSTR" (some "not a timestamp") = "NOWSTR" :=
  ⟨(claim9_timestamp_fallback "NOWSTR").2.2.1 "Wed Oct 10 20:19:24 +0000 2018"
      ⟨2018, 10, 10, 20, 19, 24, 0⟩ (by decide),
   (claim9_timestamp_fallback "NOWSTR").2.2.2.1 "not a timestamp" (by decide)⟩

/-- Claim C10, corrected.  For a nonnegative count the claim holds: the raw
trends list is truncated to at most count items before mapping, and the count
field of the payload equals the length of the returned trends sequence.  The
claim's universal quantification over every count value is false, though: a
negative count reaches the Python slice trends[:min(count, len(trends))]
unchecked, which drops that many items from the end instead, and can return
more items than the (negative) count — see the counterexample. -/
theorem claim10_trending_truncation (cap : Capability) (st : Bridge) (n : Int)
    (rs : List RawTrend) (h1 : st.initialized = true) (h2 : st.client = true)
    (hc : cap.getTrends = .ok rs) (hn : 0 ≤ n) :
    getTrending cap st (.num n) =
      (st, .obj [("success", .bool true),
                 ("trends", .arr ((pySliceTo rs
                   (min n (rs.length : Int))).filterMap mapTrend)),
                 ("count", .num (((pySliceTo rs
                   (min n (rs.length : Int))).filterMap mapTrend).length
                     : Int))],
        [.getTrends]) ∧
    (((pySliceTo rs (min n (rs.length : Int))).filterMap mapTrend).length
      : Int) ≤ n := by
  constructor
  · unfold getTrending
    rw [h1, h2, hc]
    rfl
  · have hm : 0 ≤ min n (rs.length : Int) :=
      le_min hn (Int.natCast_nonneg rs.length)
    have hslice : pySliceTo rs (min n (rs.length : Int)) =
        rs.take (min n (rs.length : Int)).toNat := by
      unfold pySliceTo
      rw [if_pos hm]
    have hlen := trends_length (pySliceTo rs (min n (rs.length : Int)))
    have htake : (rs.take (min n (rs.length : Int)).toNat).length =
        min (min n (rs.length : Int)).toNat rs.length :=
      List.length_take _ _
    rw [hslice] at hlen
    have hmin : min n (rs.length : Int) ≤ n := min_le_left _ _
    rw [hslice]
    omega

/-- Claim C10 witness: the amended theorem evaluated with count 2 against a
two-trend batch. -/
theorem claim10_witness :
    getTrending capS stAuth (.num 2) =
      (stAuth, .obj [("success", .bool true),
                     ("trends", .arr ((pySliceTo rt2
                       (min 2 (rt2.length : Int))).filterMap mapTrend)),
                     ("count", .num (((pySliceTo rt2
                       (min 2 (rt2.length : Int))).filterMap mapTrend).length
                         : Int))],
        [.getTrends]) ∧
    (((pySliceTo rt2 (min 2 (rt2.length : Int))).filterMap mapTrend).length
      : Int) ≤ 2 :=
  claim10_trending_truncation capS stAuth 2 rt2 rfl rfl rfl (by decide)

/-- Claim C10 counterexample: with count -1 against a two-trend batch on an
authenticated session, the handler returns one mapped item (the negative
Python slice dropped the last raw trend), so the payload does not contain at
most count items: its count field is 1 and 1 is not at most -1. -/
theorem claim10_counterexample :
    (getTrending capS stAuth (.num (-1))).2.1 =
      .obj [("success", .bool true),
            ("trends", .arr [.obj [("name", .str "A"), ("url", .str "a"),
              ("tweet_volume", JVal.null), ("platform", .str "twitter")]]),
            ("count", .num 1)] ∧
    ¬ ((1 : Int) ≤ -1) :=
  ⟨rfl, by decide⟩

/-- handle_request never raises on an object request: both dispatch outcomes
are wrapped into an envelope. -/
theorem handleRequest_obj_ok (cap : Capability) (now : String) (br : Bridge)
    (fs : List (String × JVal)) :
    ∃ out, handleRequest cap now br (.obj fs) = .ok out := by
  simp only [handleRequest]
  cases htb : tryBody cap now br ((lookupField fs "method").getD .null)
      ((lookupField fs "params").getD (.obj []))
      ((lookupField fs "id").getD .null) with
  | ok r => exact ⟨r, rfl⟩
  | error e =>
    exact ⟨(br, mkErrResp (-32603) ("Internal error: " ++ e.message)
      (some (formatExc e)) ((lookupField fs "id").getD .null), []), rfl⟩

/-- Claim C1, corrected.  Three facts hold: an exception raised inside the
dispatcher's guarded region (handling of a known method, e.g. parameter
extraction from a non-dict params) is converted to the -32603 envelope with
message Internal error plus detail, traceback attached as data, and the
request id preserved; the loop answers every line and survives every
failure; and a decoded line that is not a JSON object raises before the
dispatcher's guarded region, so — contrary to the claim's parenthetical —
its error response is produced by the loop's own catch-all with message
Server error plus detail and id null, not by the dispatcher's contract. -/
theorem claim1_internal_error_boundary :
    (∀ (cap : Capability) (now : String) (br : Bridge)
        (fs : List (String × JVal)) (e : PyExc),
      tryBody cap now br ((lookupField fs "method").getD .null)
          ((lookupField fs "params").getD (.obj []))
          ((lookupField fs "id").getD .null) = .error e →
      handleRequest cap now br (.obj fs) =
        .ok (br, mkErrResp (-32603) ("Internal error: " ++ e.message)
          (some (formatExc e)) ((lookupField fs "id").getD .null), [])) ∧
    (∀ (cap : Capability) (now : String) (br : Bridge) (ls : List InputLine),
      ((runLoop cap now br ls).2).length =
        (ls.filter (fun l => l.answered)).length) ∧
    (∀ (cap : Capability) (now : String) (br : Bridge) (v : JVal),
      v.isObjB = false →
      processLine cap now br (.parsed v) =
        (br, [mkErrResp (-32603) ("Server error: " ++ noGetMsg v)
          (some (formatExc (.attrError (noGetMsg v)))) .null])) := by
  refine ⟨?_, ?_, ?_⟩
  · intro cap now br fs e h
    simp only [handleRequest]
    rw [h]
  · intro cap now br ls
    exact runLoop_length cap now ls br
  · intro cap now br v h
    cases v with
    | obj fs => simp [JVal.isObjB] at h
    | null => rfl
    | bool b => rfl
    | num n => rfl
    | str s => rfl
    | arr xs => rfl

/-- Claim C1 witness: a known method (search) with a non-dict params value is
answered with the -32603 Internal error envelope and the request id 7
preserved, and a decoded non-object line is answered with the Server error
envelope and id null. -/
theorem claim1_witness :
    handleRequest cap0 "NOW" Bridge.start
        (.obj [("method", .str "search"), ("params", .num 5),
          ("id", .num 7)]) =
      .ok (Bridge.start,
        mkErrResp (-32603)
          ("Internal error: " ++ (PyExc.attrError (noGetMsg (.num 5))).message)
          (some (formatExc (.attrError (noGetMsg (.num 5))))) (.num 7), []) ∧
    processLine cap0 "NOW" Bridge.start (.parsed (.num 3)) =
      (Bridge.start, [mkErrResp (-32603)
        ("Server error: " ++ noGetMsg (.num 3))
        (some (formatExc (.attrError (noGetMsg (.num 3))))) .null]) :=
  ⟨claim1_internal_error_boundary.1 cap0 "NOW" Bridge.start
      [("method", .str "search"), ("params", .num 5), ("id", .num 7)]
      (.attrError (noGetMsg (.num 5))) rfl,
   claim1_internal_error_boundary.2.2 cap0 "NOW" Bridge.start (.num 3) rfl⟩

/-- Claim C1 counterexample: for the decoded line that is valid JSON but not
an object (the empty array), the emitted error response has id null and a
message beginning Server error, which is not of the mandated shape Internal
error plus detail — the claim's parenthetical contract fails on this input. -/
theorem claim1_counterexample :
    (processLine cap0 "NOW" Bridge.start (.parsed (.arr []))).2.map
        respErrMessage =
      [some (.str "Server error: list object has no attribute get")] ∧
    (processLine cap0 "NOW" Bridge.start (.parsed (.arr []))).2.map respId =
      [some JVal.null] ∧
    isInternalErrorForm "Server error: list object has no attribute get" =
      false :=
  ⟨rfl, rfl, by decide⟩

/-- Claim C2, corrected.  Every decoded line is answered by exactly one
response; when the decoded line is a JSON object, that response carries
exactly the request's id field (null when the field is absent); and a
malformed line's single response carries id null.  The claim's further
assertion that only parse-error responses carry id null is false: a decoded
non-object line also gets an id-null response (see the counterexample), as
does any object request without an id. -/
theorem claim2_response_id_echo :
    (∀ (cap : Capability) (now : String) (br : Bridge) (v : JVal),
      ((processLine cap now br (.parsed v)).2).length = 1) ∧
    (∀ (cap : Capability) (now : String) (br : Bridge)
        (fs : List (String × JVal)),
      ((processLine cap now br (.parsed (.obj fs))).2).map respId =
        [some ((lookupField fs "id").getD .null)]) ∧
    (∀ (cap : Capability) (now : String) (br : Bridge) (msg : String),
      ((processLine cap now br (.malformed msg)).2).map respId =
        [some JVal.null]) := by
  refine ⟨?_, ?_, ?_⟩
  · intro cap now br v
    have h := processLine_length cap now br (.parsed v)
    simpa using h
  · intro cap now br fs
    cases h : handleRequest cap now br (.obj fs) with
    | ok out =>
      obtain ⟨br', resp, tr⟩ := out
      have hid := handleRequest_obj_id cap now br fs (br', resp, tr) h
      simp only [processLine, h, List.map]
      rw [show respId (br', resp, tr).2.1 = respId resp from rfl] at hid
      rw [hid]
    | error e =>
      obtain ⟨out, hok⟩ := handleRequest_obj_ok cap now br fs
      rw [h] at hok
      cases hok
  · intro cap now br msg
    rfl

/-- Claim C2 counterexample: the decoded line that is the empty JSON array is
well-formed input, is answered by exactly one response, and that response
carries id null although it is not a parse-error response (its code is
-32603, not -32700) — refuting the assertion that only parse-error responses
carry id null. -/
theorem claim2_counterexample :
    ((processLine cap0 "NOW" Bridge.start (.parsed (.arr []))).2).length = 1 ∧
    (processLine cap0 "NOW" Bridge.start (.parsed (.arr []))).2.map
        respErrCode = [some (.num (-32603))] ∧
    (processLine cap0 "NOW" Bridge.start (.parsed (.arr []))).2.map respId =
      [some JVal.null] ∧
    (-32603 : Int) ≠ -32700 :=
  ⟨rfl, rfl, rfl, by decide⟩

end Twikit
